import Mathlib

/-!
Verification of the chat widget in `src/app/static/script.js` (eduvoice).

The script binds a submit handler to a form.  On submit it trims the input,
returns early on an empty result, appends the user's message to the chat
window, clears the input, POSTs `{"message": <trimmed>}` to `/api/chat`,
and appends the agent's reply (`data.reply || data.response ||
JSON.stringify(data)`) or an error message (`"Error: " + err.message`).

We shallowly embed the handler as a pure function from a widget state
and a modelled network outcome to a trace of observable events and a
final state.  JavaScript semantics that matter here (string trimming,
truthiness of the `||` chain, `JSON.stringify`, the string coercion done
by the `textContent` setter) are embedded explicitly.
-/

namespace EduVoice

/-- JSON values, as produced by `response.json()`.  JSON numbers are
modelled as integers; no claim involves numeric bodies.  Object field
lists come from `JSON.parse`, whose output has unique keys in insertion
order. -/
inductive Json where
  | null : Json
  | bool (b : Bool) : Json
  | num (n : Int) : Json
  | str (s : String) : Json
  | arr (elems : List Json) : Json
  | obj (fields : List (String × Json)) : Json
deriving Repr

/-- JavaScript truthiness of a JSON value: `null`, `false`, `0` and `""`
are falsy; every array and object (even empty) is truthy. -/
def jsTruthy : Json → Bool
  | .null => false
  | .bool b => b
  | .num n => n != 0
  | .str s => s != ""
  | .arr _ => true
  | .obj _ => true

/-- Truthiness of a property-access result; an absent property is
`undefined`, which is falsy. -/
def truthyOpt : Option Json → Bool
  | none => false
  | some v => jsTruthy v

/-- Hex digit (lowercase) for JSON `\u00xx` escapes. -/
def hexDigit (n : Nat) : Char :=
  if n < 10 then Char.ofNat (48 + n) else Char.ofNat (87 + n)

/-- One character of a JSON-quoted string, per `JSON.stringify`:
quote and backslash are escaped, the named C0 escapes are used, other
C0 controls become `\u00xx`, everything else is copied verbatim. -/
def escJsonChar (c : Char) : String :=
  if c = '"' then "\\\""
  else if c = '\\' then "\\\\"
  else if c = Char.ofNat 8 then "\\b"
  else if c = '\t' then "\\t"
  else if c = '\n' then "\\n"
  else if c = Char.ofNat 12 then "\\f"
  else if c = '\r' then "\\r"
  else if c.toNat < 32 then
    "\\u00" ++ String.mk [hexDigit (c.toNat / 16), hexDigit (c.toNat % 16)]
  else String.singleton c

/-- `JSON.stringify` on a string: surrounding quotes plus escaping. -/
def quoteJsonString (s : String) : String :=
  "\"" ++ String.join (s.toList.map escJsonChar) ++ "\""

mutual

/-- `JSON.stringify` of a JSON value. -/
def stringifyJson : Json → String
  | .null => "null"
  | .bool b => if b then "true" else "false"
  | .num n => toString n
  | .str s => quoteJsonString s
  | .arr xs => "[" ++ String.intercalate "," (stringifyList xs) ++ "]"
  | .obj fs => "\x7b" ++ String.intercalate "," (stringifyFields fs) ++ "\x7d"

/-- `JSON.stringify` of each array element. -/
def stringifyList : List Json → List String
  | [] => []
  | x :: xs => stringifyJson x :: stringifyList xs

/-- `JSON.stringify` of each object field, as `"key":value`. -/
def stringifyFields : List (String × Json) → List String
  | [] => []
  | (k, v) :: fs => (quoteJsonString k ++ ":" ++ stringifyJson v) :: stringifyFields fs

end

mutual

/-- JavaScript `String(v)` coercion of a JSON value, as performed by the
`textContent` setter: strings unchanged, `true`/`false`/decimal numbers,
arrays joined by commas (with `null` elements becoming the empty
string), plain objects rendered as `[object Object]`. -/
def jsStringCoerce : Json → String
  | .null => "null"
  | .bool b => if b then "true" else "false"
  | .num n => toString n
  | .str s => s
  | .arr xs => String.intercalate "," (coerceElems xs)
  | .obj _ => "[object Object]"

/-- `Array.prototype.join` coercion of array elements: `null` (and
`undefined`) become the empty string. -/
def coerceElems : List Json → List String
  | [] => []
  | .null :: xs => "" :: coerceElems xs
  | x :: xs => jsStringCoerce x :: coerceElems xs

end

/-- Characters removed by `String.prototype.trim`: ECMAScript
WhiteSpace and LineTerminator code points. -/
def isJsWhitespace (c : Char) : Bool :=
  c.toNat ∈ [0x9, 0xA, 0xB, 0xC, 0xD, 0x20, 0xA0, 0x1680,
    0x2000, 0x2001, 0x2002, 0x2003, 0x2004, 0x2005, 0x2006, 0x2007,
    0x2008, 0x2009, 0x200A, 0x2028, 0x2029, 0x202F, 0x205F, 0x3000, 0xFEFF]

/-- JavaScript `String.prototype.trim`. -/
def jsTrim (s : String) : String :=
  String.mk (((s.toList.dropWhile isJsWhitespace).reverse.dropWhile isJsWhitespace).reverse)

/-- The `sender` tag of line 6: `'user'` or `'agent'`. -/
inductive Sender where
  | user : Sender
  | agent : Sender
deriving Repr, DecidableEq

/-- A rendered chat message: the `div` appended by `appendMessage`. -/
structure ChatMessage where
  text : String
  sender : Sender
deriving Repr, DecidableEq

/-- Observable widget state: the text input value, the chat window's
list of message nodes, and its scroll position. -/
structure WidgetState where
  inputValue : String
  log : List ChatMessage
  scrollTop : Nat
deriving Repr, DecidableEq

/-- The network request built by lines 22-28. -/
structure Request where
  method : String
  url : String
  contentType : String
  body : String
deriving Repr, DecidableEq

/-- Observable events of one run of the submit handler, in program
order. -/
inductive Event where
  | appended (m : ChatMessage) : Event
  | clearedInput : Event
  | requestSent (r : Request) : Event
deriving Repr, DecidableEq

/-- Outcome of the awaited `fetch`: either the promise rejects with a
transport error carrying a message, or a response arrives with an `ok`
flag (status in 2xx) and, when read, a body that parses to JSON or
fails to parse with an error message. -/
inductive FetchResult where
  | transportError (msg : String) : FetchResult
  | response (ok : Bool) (body : Except String Json) : FetchResult
deriving Repr

/-- `appendMessage` (lines 6-12): append a `div` holding the coerced
text, then set `scrollTop` to `scrollHeight`.  The scroll height of the
chat window is an external DOM quantity; it is modelled as an arbitrary
function `h` of the message list. -/
def appendMessage (h : List ChatMessage → Nat) (st : WidgetState)
    (text : String) (sender : Sender) : WidgetState :=
  let log := st.log ++ [⟨text, sender⟩]
  { st with log := log, scrollTop := h log }

/-- JavaScript property access `data.key` inside the `try` block: on
`null` it throws a `TypeError` (whose message text is engine specific);
on an object it yields the field when present and `undefined` (here
`none`) otherwise; on any other value it yields `undefined` for the
keys used by the script. -/
def memberAccess (data : Json) (key : String) : Except String (Option Json) :=
  match data with
  | .null => .error ("Cannot read properties of null (reading " ++ key ++ ")")
  | .obj fs => .ok (fs.lookup key)
  | _ => .ok none

/-- Line 33's expression `data.reply || data.response ||
JSON.stringify(data)`, coerced to the displayed string; a thrown
`TypeError` propagates as an error. -/
def extractDisplay (data : Json) : Except String String := do
  let r ← memberAccess data "reply"
  if truthyOpt r then
    return jsStringCoerce (r.getD .null)
  else
    let s ← memberAccess data "response"
    if truthyOpt s then
      return jsStringCoerce (s.getD .null)
    else
      return stringifyJson data

/-- Text of the agent message appended after a 2xx response whose body
parsed to `data`: the line 33 display value, or `"Error: " + message`
when the extraction threw and control reached the `catch`. -/
def successText (data : Json) : String :=
  match extractDisplay data with
  | .ok s => s
  | .error m => "Error: " ++ m

/-- The request literal of lines 22-28: `POST /api/chat` with JSON
content type and body `JSON.stringify({ message })`. -/
def chatRequest (message : String) : Request :=
  { method := "POST", url := "/api/chat",
    contentType := "application/json",
    body := stringifyJson (.obj [("message", .str message)]) }

/-- The submit handler (lines 14-37) as a function of the initial state
and the network outcome, returning the trace of observable events in
program order together with the final state. -/
def submit (h : List ChatMessage → Nat) (st : WidgetState)
    (net : FetchResult) : List Event × WidgetState :=
  let message := jsTrim st.inputValue
  if message = "" then ([], st)
  else
    let st1 := appendMessage h st message .user
    let st2 := { st1 with inputValue := "" }
    let pre : List Event :=
      [.appended ⟨message, .user⟩, .clearedInput, .requestSent (chatRequest message)]
    match net with
    | .transportError m =>
        let t := "Error: " ++ m
        (pre ++ [.appended ⟨t, .agent⟩], appendMessage h st2 t .agent)
    | .response ok body =>
        if ok then
          match body with
          | .error m =>
              let t := "Error: " ++ m
              (pre ++ [.appended ⟨t, .agent⟩], appendMessage h st2 t .agent)
          | .ok data =>
              let t := successText data
              (pre ++ [.appended ⟨t, .agent⟩], appendMessage h st2 t .agent)
        else
          let t := "Error: Server error"
          (pre ++ [.appended ⟨t, .agent⟩], appendMessage h st2 t .agent)

/-- The requests issued during a run: the `requestSent` events of the
trace. -/
def requestsOf (tr : List Event) : List Request :=
  tr.filterMap fun e => match e with
    | .requestSent r => some r
    | _ => none

/-- The messages appended during a run: the `appended` events of the
trace. -/
def appendsOf (tr : List Event) : List ChatMessage :=
  tr.filterMap fun e => match e with
    | .appended m => some m
    | _ => none

/-- A network-call failure in the sense of the spec: the promise
rejected (transport error) or the response status was non-2xx. -/
def isNetFailure : FetchResult → Bool
  | .transportError _ => true
  | .response ok _ => !ok

/-- The error text the handler displays for a network-call failure. -/
def netErrorText : FetchResult → String
  | .transportError m => "Error: " ++ m
  | .response _ _ => "Error: Server error"

/-- A property-access result restricted to truthy values: the value
when present and truthy, `none` otherwise. -/
def truthyVal : Option Json → Option Json
  | some v => if jsTruthy v then some v else none
  | none => none

/-- Spec-side reply extraction for an object body, written from the
amended claim C1: the displayed text is the coercion of the `reply`
field when that field is present with a truthy value, otherwise of the
`response` field when present with a truthy value, otherwise the
serialized JSON body. -/
def specAgentText (fs : List (String × Json)) : String :=
  match truthyVal (fs.lookup "reply") with
  | some v => jsStringCoerce v
  | none =>
    match truthyVal (fs.lookup "response") with
    | some v => jsStringCoerce v
    | none => stringifyJson (Json.obj fs)

/-- The text of the agent message a given network outcome produces:
the caught transport error, the generic server-error text for a
non-2xx status, the caught parse error, or the line 33 display value. -/
def agentTextOf : FetchResult → String
  | .transportError m => "Error: " ++ m
  | .response ok body =>
    if ok then
      match body with
      | .error m => "Error: " ++ m
      | .ok data => successText data
    else "Error: Server error"

/-- A concrete scroll-height function for witnesses. -/
def hLen : List ChatMessage → Nat := fun l => l.length

/-- A concrete initial state for witnesses: input holding `" hi "`,
empty log. -/
def stHi : WidgetState := ⟨" hi ", [], 0⟩

/-- A concrete state whose input is all whitespace. -/
def stBlank : WidgetState := ⟨" \t ", [], 0⟩

/-- A concrete state with the same input as `stHi` but a non-empty
log and a different scroll position. -/
def stHiLater : WidgetState := ⟨" hi ", [⟨"old", .agent⟩], 5⟩

/-! ## Helper lemma -/

/-- For an object body, the handler's displayed text (line 33's `||`
chain) agrees with the spec-side truthiness-based extraction. -/
theorem successText_obj_eq_spec (fs : List (String × Json)) :
    successText (Json.obj fs) = specAgentText fs := by
  unfold successText extractDisplay memberAccess specAgentText truthyVal
  cases hr : fs.lookup "reply" with
  | none => cases hs : fs.lookup "response" with
    | none => simp [truthyOpt, hr, hs, Except.bind, bind, pure, Except.pure]
    | some v => cases hv : jsTruthy v <;>
        simp [truthyOpt, hr, hs, hv, Except.bind, bind, pure, Except.pure]
  | some v => cases hv : jsTruthy v with
    | true => simp [truthyOpt, hr, hv, Except.bind, bind, pure, Except.pure]
    | false => cases hs : fs.lookup "response" with
      | none => simp [truthyOpt, hr, hs, hv, Except.bind, bind, pure, Except.pure]
      | some w => cases hw : jsTruthy w <;>
          simp [truthyOpt, hr, hs, hv, hw, Except.bind, bind, pure, Except.pure]

/-! ## Claims -/

/-- Claim C1, counterexample: for the 2xx body `{"reply": ""}` the
`reply` field is present with value `""`, yet the appended agent
message text is the serialized body, not `""` — the `||` chain skips
falsy values, so "if there is no `reply` field" is the wrong
condition. -/
theorem reply_present_but_falsy_shows_serialized_body :
    (submit hLen stHi (.response true (.ok (Json.obj [("reply", Json.str "")])))).2.log =
      [⟨"hi", .user⟩, ⟨"\x7b\"reply\":\"\"\x7d", .agent⟩] ∧
    ("\x7b\"reply\":\"\"\x7d" : String) ≠ "" := by
  exact ⟨by decide, by decide⟩

/-- Claim C1, amended: for every 2xx response whose JSON body is an
object, the appended agent message text is the (string-coerced) value
of the `reply` field when that value is truthy, otherwise of the
`response` field when that value is truthy, and otherwise the raw
serialized JSON body; a field holding a falsy value (such as `""`) is
skipped exactly like an absent one. -/
theorem submit_success_agent_text_spec (h : List ChatMessage → Nat)
    (st : WidgetState) (fs : List (String × Json))
    (hne : jsTrim st.inputValue ≠ "") :
    (submit h st (.response true (.ok (Json.obj fs)))).2.log =
      st.log ++ [⟨jsTrim st.inputValue, .user⟩, ⟨specAgentText fs, .agent⟩] := by
  simp [submit, hne, appendMessage, successText_obj_eq_spec]

/-- Witness for C1 at the body `{"response": "yo"}`. -/
theorem submit_success_agent_text_spec_witness :
    jsTrim stHi.inputValue ≠ "" ∧
    (submit hLen stHi (.response true (.ok (Json.obj [("response", Json.str "yo")])))).2.log =
      stHi.log ++ [⟨jsTrim stHi.inputValue, .user⟩,
        ⟨specAgentText [("response", Json.str "yo")], .agent⟩] :=
  ⟨by decide, submit_success_agent_text_spec hLen stHi [("response", Json.str "yo")] (by decide)⟩

/-- Claim C2: when the trimmed input is empty, submitting emits no
event (no append, no network request) and leaves the state — input
field, log and scroll position — unchanged. -/
theorem submit_blank_input_noop (h : List ChatMessage → Nat)
    (st : WidgetState) (net : FetchResult)
    (he : jsTrim st.inputValue = "") :
    submit h st net = ([], st) := by
  simp [submit, he]

/-- Witness for C2 at the all-whitespace input `" \t "`. -/
theorem submit_blank_input_noop_witness :
    jsTrim stBlank.inputValue = "" ∧
    submit hLen stBlank (.transportError "x") = ([], stBlank) :=
  ⟨by decide, submit_blank_input_noop hLen stBlank (.transportError "x") (by decide)⟩

/-- Claim C3: when the trimmed input is non-empty, submitting appends
exactly one `user`-sender message carrying the trimmed text (the only
other appended message has sender `agent`) and sets the input field to
the empty string, whatever the network outcome. -/
theorem submit_nonempty_appends_user_clears_input
    (h : List ChatMessage → Nat) (st : WidgetState) (net : FetchResult)
    (hne : jsTrim st.inputValue ≠ "") :
    (submit h st net).2.log =
      st.log ++ [⟨jsTrim st.inputValue, .user⟩, ⟨agentTextOf net, .agent⟩] ∧
    (submit h st net).2.inputValue = "" := by
  cases net with
  | transportError m =>
      constructor <;> simp [submit, hne, appendMessage, agentTextOf]
  | response ok body =>
      cases ok <;> cases body <;> constructor <;>
        simp [submit, hne, appendMessage, agentTextOf]

/-- Witness for C3 at input `" hi "` and body `{"reply": "yo"}`. -/
theorem submit_nonempty_appends_user_clears_input_witness :
    jsTrim stHi.inputValue ≠ "" ∧
    ((submit hLen stHi (.response true (.ok (Json.obj [("reply", Json.str "yo")])))).2.log =
      stHi.log ++ [⟨jsTrim stHi.inputValue, .user⟩,
        ⟨agentTextOf (.response true (.ok (Json.obj [("reply", Json.str "yo")]))), .agent⟩] ∧
     (submit hLen stHi (.response true (.ok (Json.obj [("reply", Json.str "yo")])))).2.inputValue = "") :=
  ⟨by decide, submit_nonempty_appends_user_clears_input hLen stHi
    (.response true (.ok (Json.obj [("reply", Json.str "yo")]))) (by decide)⟩

/-- Claim C4: a response with a non-2xx status (regardless of its
body) makes the submission append exactly one agent message whose text
is exactly `"Error: Server error"`. -/
theorem submit_server_error_text (h : List ChatMessage → Nat)
    (st : WidgetState) (body : Except String Json)
    (hne : jsTrim st.inputValue ≠ "") :
    (submit h st (.response false body)).2.log =
      st.log ++ [⟨jsTrim st.inputValue, .user⟩,
        ⟨"Error: Server error", .agent⟩] := by
  simp [submit, hne, appendMessage]

/-- Witness for C4. -/
theorem submit_server_error_text_witness :
    jsTrim stHi.inputValue ≠ "" ∧
    (submit hLen stHi (.response false (.ok (Json.obj [])))).2.log =
      stHi.log ++ [⟨jsTrim stHi.inputValue, .user⟩,
        ⟨"Error: Server error", .agent⟩] :=
  ⟨by decide, submit_server_error_text hLen stHi (.ok (Json.obj [])) (by decide)⟩

/-- Claim C5: a transport-level failure with message `m` makes the
submission append exactly one agent message whose text is
`"Error: " ++ m`. -/
theorem submit_transport_error_text (h : List ChatMessage → Nat)
    (st : WidgetState) (m : String)
    (hne : jsTrim st.inputValue ≠ "") :
    (submit h st (.transportError m)).2.log =
      st.log ++ [⟨jsTrim st.inputValue, .user⟩,
        ⟨"Error: " ++ m, .agent⟩] := by
  simp [submit, hne, appendMessage]

/-- Witness for C5 at message `"network down"`. -/
theorem submit_transport_error_text_witness :
    jsTrim stHi.inputValue ≠ "" ∧
    (submit hLen stHi (.transportError "network down")).2.log =
      stHi.log ++ [⟨jsTrim stHi.inputValue, .user⟩,
        ⟨"Error: network down", .agent⟩] :=
  ⟨by decide, submit_transport_error_text hLen stHi "network down" (by decide)⟩

/-- Claim C6: every non-empty trimmed submission issues exactly one
network request: a POST to `/api/chat` with content type
`application/json` and body the JSON serialization of
`\x7b"message": <trimmed text>\x7d`. -/
theorem submit_single_request (h : List ChatMessage → Nat)
    (st : WidgetState) (net : FetchResult)
    (hne : jsTrim st.inputValue ≠ "") :
    requestsOf (submit h st net).1 =
      [⟨"POST", "/api/chat", "application/json",
        stringifyJson (Json.obj [("message", Json.str (jsTrim st.inputValue))])⟩] := by
  cases net with
  | transportError m => simp [submit, hne, requestsOf, chatRequest]
  | response ok body =>
      cases ok <;> cases body <;> simp [submit, hne, requestsOf, chatRequest]

/-- Witness for C6. -/
theorem submit_single_request_witness :
    jsTrim stHi.inputValue ≠ "" ∧
    requestsOf (submit hLen stHi (.transportError "x")).1 =
      [⟨"POST", "/api/chat", "application/json",
        stringifyJson (Json.obj [("message", Json.str (jsTrim stHi.inputValue))])⟩] :=
  ⟨by decide, submit_single_request hLen stHi (.transportError "x") (by decide)⟩

/-- Claim C7: every append — any text, any sender — leaves the newly
appended message last in the log and sets the container's scroll
position to its full content height (`scrollTop = scrollHeight`), for
every scroll-height function `h` of the content. -/
theorem appendMessage_scrolls_to_bottom (h : List ChatMessage → Nat)
    (st : WidgetState) (text : String) (sender : Sender) :
    (appendMessage h st text sender).log = st.log ++ [⟨text, sender⟩] ∧
    (appendMessage h st text sender).scrollTop =
      h ((appendMessage h st text sender).log) :=
  ⟨rfl, rfl⟩

/-- Claim C8: a network-call failure (transport error or non-2xx
status) is absorbed inside the handler: the final state is exactly the
pre-fetch state (user message appended, input cleared) plus one
appended agent message carrying the error text; the log only grows by
the trace's appended messages; and a state with the same input value —
such as the widget after an earlier failure — produces the identical
trace and final input value, so a subsequent submission is processed
exactly like the first. -/
theorem submit_failure_contained (h : List ChatMessage → Nat)
    (st st' : WidgetState) (net : FetchResult)
    (hne : jsTrim st.inputValue ≠ "") (hf : isNetFailure net = true)
    (heq : st'.inputValue = st.inputValue) :
    (submit h st net).2 =
      appendMessage h
        { appendMessage h st (jsTrim st.inputValue) .user with inputValue := "" }
        (netErrorText net) .agent ∧
    (submit h st net).2.log = st.log ++ appendsOf (submit h st net).1 ∧
    (submit h st' net).1 = (submit h st net).1 ∧
    (submit h st' net).2.inputValue = (submit h st net).2.inputValue := by
  cases net with
  | transportError m =>
      refine ⟨?_, ?_, ?_, ?_⟩ <;>
        simp [submit, hne, heq, appendsOf, appendMessage, netErrorText]
  | response ok body =>
      cases ok with
      | false =>
          refine ⟨?_, ?_, ?_, ?_⟩ <;>
            simp [submit, hne, heq, appendsOf, appendMessage, netErrorText]
      | true => simp [isNetFailure] at hf

/-- Witness for C8: a transport failure from `stHi`, and the state
`stHiLater` (same input, longer log) behaving identically. -/
theorem submit_failure_contained_witness :
    jsTrim stHi.inputValue ≠ "" ∧
    isNetFailure (.transportError "boom") = true ∧
    stHiLater.inputValue = stHi.inputValue ∧
    ((submit hLen stHi (.transportError "boom")).2 =
      appendMessage hLen
        { appendMessage hLen stHi (jsTrim stHi.inputValue) .user with inputValue := "" }
        (netErrorText (.transportError "boom")) .agent ∧
     (submit hLen stHi (.transportError "boom")).2.log =
       stHi.log ++ appendsOf (submit hLen stHi (.transportError "boom")).1 ∧
     (submit hLen stHiLater (.transportError "boom")).1 =
       (submit hLen stHi (.transportError "boom")).1 ∧
     (submit hLen stHiLater (.transportError "boom")).2.inputValue =
       (submit hLen stHi (.transportError "boom")).2.inputValue) :=
  ⟨by decide, by decide, by decide,
   submit_failure_contained hLen stHi stHiLater (.transportError "boom")
     (by decide) (by decide) (by decide)⟩

/-- Claim C9: a 2xx response whose body fails to parse as JSON does not
crash the widget: the rejection of `response.json()` reaches the
`catch` and exactly one agent message is appended whose text is
`"Error: "` followed by the parse error's message. -/
theorem submit_parse_error_caught (h : List ChatMessage → Nat)
    (st : WidgetState) (m : String)
    (hne : jsTrim st.inputValue ≠ "") :
    (submit h st (.response true (.error m))).2.log =
      st.log ++ [⟨jsTrim st.inputValue, .user⟩,
        ⟨"Error: " ++ m, .agent⟩] := by
  simp [submit, hne, appendMessage]

/-- Witness for C9. -/
theorem submit_parse_error_caught_witness :
    jsTrim stHi.inputValue ≠ "" ∧
    (submit hLen stHi (.response true (.error "Unexpected end of JSON input"))).2.log =
      stHi.log ++ [⟨jsTrim stHi.inputValue, .user⟩,
        ⟨"Error: Unexpected end of JSON input", .agent⟩] :=
  ⟨by decide, submit_parse_error_caught hLen stHi "Unexpected end of JSON input" (by decide)⟩

/-- Claim C10: for every non-empty trimmed submission the event trace
is exactly: the user message is appended, the input field is cleared,
the request is sent, and the agent (reply or error) message is
appended — so the user append and the input clear precede the network
call, and the user message precedes its own agent message. -/
theorem submit_event_order (h : List ChatMessage → Nat)
    (st : WidgetState) (net : FetchResult)
    (hne : jsTrim st.inputValue ≠ "") :
    (submit h st net).1 =
      [.appended ⟨jsTrim st.inputValue, .user⟩, .clearedInput,
       .requestSent (chatRequest (jsTrim st.inputValue)),
       .appended ⟨agentTextOf net, .agent⟩] := by
  cases net with
  | transportError m => simp [submit, hne, agentTextOf]
  | response ok body => cases ok <;> cases body <;> simp [submit, hne, agentTextOf]

/-- Witness for C10. -/
theorem submit_event_order_witness :
    jsTrim stHi.inputValue ≠ "" ∧
    (submit hLen stHi (.response true (.ok (Json.obj [("reply", Json.str "yo")])))).1 =
      [.appended ⟨jsTrim stHi.inputValue, .user⟩, .clearedInput,
       .requestSent (chatRequest (jsTrim stHi.inputValue)),
       .appended ⟨agentTextOf (.response true (.ok (Json.obj [("reply", Json.str "yo")]))), .agent⟩] :=
  ⟨by decide, submit_event_order hLen stHi
    (.response true (.ok (Json.obj [("reply", Json.str "yo")]))) (by decide)⟩

end EduVoice
